import Mathlib

/-!
Shallow embedding of `src/lib/mongodb.ts` (dev-events): the cached
Mongoose connection helper `connectDB` and the `Booking` schema with its
email normalization/validation and its pre-save Event-existence hook.

Connections, promises, ObjectIds and error values are represented by
`Nat` identifiers; the single-threaded cooperative concurrency of the
JavaScript runtime is modelled by splitting `connectDB` into its atomic
synchronous prefix (`connectDB_start`, everything up to the first
`await`) and its resumption after the awaited promise settles
(`connectDB_resume`).
-/

namespace DevEvents

/-- The global mongoose cache object `{ conn, promise }` from
`src/lib/mongodb.ts`: `conn` is the cached connection (or `null`),
`promise` the in-flight connection promise (or `null`). -/
structure ConnCache where
  conn : Option Nat
  promise : Option Nat
deriving DecidableEq, Repr

/-- Process-wide state relevant to `connectDB`: the cache, the number of
underlying `mongoose.connect` calls made so far, and a source of fresh
promise identifiers. -/
structure ConnState where
  cache : ConnCache
  attempts : Nat
  nextPromise : Nat
deriving DecidableEq, Repr

/-- What the synchronous prefix of a `connectDB()` call does: either
return a connection without suspending, or suspend awaiting a promise. -/
inductive ConnStep where
  | ret (c : Nat)
  | awaits (p : Nat)
deriving DecidableEq, Repr

/-- Outcome of the underlying `mongoose.connect(...)` promise. -/
inductive ConnOutcome where
  | ok (c : Nat)
  | fail (e : Nat)
deriving DecidableEq, Repr

/-- The synchronous prefix of `connectDB` (src/lib/mongodb.ts lines
47-64), which runs atomically in the single-threaded runtime:
return `cached.conn` if set; otherwise, if `cached.promise` is unset,
call `mongoose.connect` (one more attempt) and store the new promise;
then suspend on `await cached.promise`. -/
def connectDB_start (s : ConnState) : ConnState × ConnStep :=
  match s.cache.conn with
  | some c => (s, ConnStep.ret c)
  | none =>
    match s.cache.promise with
    | some p => (s, ConnStep.awaits p)
    | none =>
      let p := s.nextPromise
      (⟨⟨none, some p⟩, s.attempts + 1, p + 1⟩, ConnStep.awaits p)

/-- The resumption of `connectDB` after `await cached.promise` settles
(src/lib/mongodb.ts lines 65-74): on success store the connection in
`cached.conn` and return it; on failure reset `cached.promise` to `null`
and rethrow the error. -/
def connectDB_resume (s : ConnState) (o : ConnOutcome) : ConnState × Except Nat Nat :=
  match o with
  | ConnOutcome.ok c =>
    (⟨⟨some c, s.cache.promise⟩, s.attempts, s.nextPromise⟩, Except.ok c)
  | ConnOutcome.fail e =>
    (⟨⟨s.cache.conn, none⟩, s.attempts, s.nextPromise⟩, Except.error e)

/-- Module initialization of `src/lib/mongodb.ts` lines 4-11: read
`process.env.MONGODB_URI` (exactly one environment read) and run the
falsy check `if (!MONGODB_URI) throw ...`, which throws both when the
variable is undefined and when it is present but the empty string;
otherwise keep the URI. The first component is the initialization
result, the second the number of environment reads. -/
def moduleInit (env : Option String) : Except String String × Nat :=
  match env with
  | none =>
    (Except.error "Please define the MONGODB_URI environment variable inside .env.local", 1)
  | some uri =>
    if uri = "" then
      (Except.error "Please define the MONGODB_URI environment variable inside .env.local", 1)
    else (Except.ok uri, 1)

/-- Lines 30-34 of `src/lib/mongodb.ts`:
`let cached = global.mongoose; if (!cached) cached = global.mongoose = { conn: null, promise: null }`.
Given the current value of `global.mongoose` (absent on the first load),
produce the cache object the module will use. -/
def initGlobalCache (g : Option ConnCache) : ConnCache :=
  match g with
  | some c => c
  | none => ⟨none, none⟩

/-- Line 140 of `src/lib/mongodb.ts`:
`const Booking = models.Booking || model('Booking', BookingSchema)`.
Given the already-registered Booking model (if any) and the model a
fresh compilation would produce, pick the one the module exports. -/
def initBookingModel (registered : Option Nat) (freshCompile : Nat) : Nat :=
  match registered with
  | some m => m
  | none => freshCompile

/-! ### Booking schema (src/lib/mongodb.ts lines 78-142) -/

/-- Character class `[^\s@]` of the email regex: any character that is
neither whitespace nor `@`. -/
def emailChar (c : Char) : Bool := !c.isWhitespace && !(c = '@' : Bool)

/-- Matcher for the anchored regex fragment `[^\s@]+$`. -/
def matchAplus (l : List Char) : Bool := !l.isEmpty && l.all emailChar

/-- Backtracking matcher for the fragment `[^\s@]*\.[^\s@]+$`: either the
head character is the literal dot and the tail matches `[^\s@]+$`, or the
head belongs to the leading `[^\s@]*` and the rest still matches. -/
def matchStarDotAplus : List Char → Bool
  | [] => false
  | c :: rest =>
    ((if c = '.' then matchAplus rest else false) : Bool) ||
      (emailChar c && matchStarDotAplus rest)

/-- Matcher for the domain fragment `[^\s@]+\.[^\s@]+$` (one mandatory
leading class character, then `[^\s@]*\.[^\s@]+$`). -/
def matchDomain : List Char → Bool
  | [] => false
  | c :: rest => emailChar c && matchStarDotAplus rest

/-- Backtracking matcher for `[^\s@]*@[^\s@]+\.[^\s@]+$`: either the head
is the literal `@` and the rest matches the domain fragment, or the head
belongs to the leading `[^\s@]*` (note `emailChar '@' = false`, so the
two alternatives never overlap). -/
def matchStarAtDomain : List Char → Bool
  | [] => false
  | c :: rest =>
    ((if c = '@' then matchDomain rest else false) : Bool) ||
      (emailChar c && matchStarAtDomain rest)

/-- The full anchored email regex of the source,
`/^[^\s@]+@[^\s@]+\.[^\s@]+$/` (src/lib/mongodb.ts line 106). -/
def emailMatch : List Char → Bool
  | [] => false
  | c :: rest => emailChar c && matchStarAtDomain rest

/-- The email validator of `BookingSchema.email` applied to a string. -/
def emailAccept (s : String) : Bool := emailMatch s.toList

/-- JavaScript `String.prototype.trim` on the character list: strip
leading and trailing whitespace. -/
def trimChars (l : List Char) : List Char :=
  ((l.dropWhile Char.isWhitespace).reverse.dropWhile Char.isWhitespace).reverse

/-- The `trim: true` and `lowercase: true` setters of
`BookingSchema.email` (src/lib/mongodb.ts lines 101-102): JavaScript
`v.trim().toLowerCase()`, modelled on the character list. -/
def normalizeEmail (s : String) : String := ⟨(trimChars s.data).map Char.toLower⟩

/-- Errors a Booking save can signal: a schema validation failure or the
reference-integrity `Error` thrown by the pre-save hook. -/
inductive SaveError where
  | validation (msg : String)
  | referenceIntegrity (msg : String)
deriving DecidableEq, Repr

/-- Message of the error thrown at src/lib/mongodb.ts line 131. -/
def refErrorMsg (eventId : Nat) : String :=
  "Event with ID " ++ toString eventId ++ " does not exist"

/-- The pre('save') hook of `BookingSchema` (src/lib/mongodb.ts lines
121-134): when the document is new or its `eventId` path is modified,
look the Event up (`Event.findById`) and throw if it does not exist;
otherwise do nothing. The second component counts `findById` lookups. -/
def preSaveHook (events : List Nat) (isNew modifiedEventId : Bool)
    (eventId : Nat) : Except SaveError Unit × Nat :=
  if isNew || modifiedEventId then
    if eventId ∈ events then (Except.ok (), 1)
    else (Except.error (SaveError.referenceIntegrity (refErrorMsg eventId)), 1)
  else (Except.ok (), 0)

/-- The visible database state: the identifiers of existing Event
records, and the persisted Booking records as (eventId, email) pairs. -/
structure DB where
  events : List Nat
  bookings : List (Nat × String)
deriving DecidableEq, Repr

/-- Result of running `booking.save()`: the database afterwards, the
returned value or error, and how many Event lookups the hook made. -/
structure SaveResult where
  db : DB
  result : Except SaveError (Nat × String)
  lookups : Nat

/-- The mongoose save pipeline for a Booking document: setters have
normalized the email on assignment; validation (required checks and the
email regex validator) runs first; only then does the pre('save') hook
run; only after the hook succeeds is the record written. On any error
the database is unchanged. -/
def runSave (db : DB) (isNew modifiedEventId : Bool)
    (eventId : Option Nat) (email : Option String) : SaveResult :=
  match eventId with
  | none => ⟨db, Except.error (SaveError.validation "Event ID is required"), 0⟩
  | some eid =>
    match email with
    | none => ⟨db, Except.error (SaveError.validation "Email is required"), 0⟩
    | some rawEmail =>
      let em := normalizeEmail rawEmail
      if !emailAccept em then
        ⟨db, Except.error (SaveError.validation "Please provide a valid email address"), 0⟩
      else
        match preSaveHook db.events isNew modifiedEventId eid with
        | (Except.error e, n) => ⟨db, Except.error e, n⟩
        | (Except.ok _, n) =>
          ⟨⟨db.events, db.bookings ++ [(eid, em)]⟩, Except.ok (eid, em), n⟩

/-! ### Spec-side characterizations of the email validator -/

/-- A `'.'` followed by at least one further character occurs in the
list. -/
def hasNonFinalDot : List Char → Bool
  | [] => false
  | c :: rest => ((c = '.' : Bool) && !rest.isEmpty) || hasNonFinalDot rest

/-- A `'.'` occurs at some interior position: neither first nor last. -/
def hasInteriorDot : List Char → Bool
  | [] => false
  | _ :: rest => hasNonFinalDot rest

/-- Spec-side characterization (amended): the domain consists of
non-whitespace non-`@` characters and contains an interior dot. -/
def specDomainOk (l : List Char) : Bool :=
  l.all emailChar && hasInteriorDot l

/-- Spec-side characterization (amended) of the accepted strings: a
non-empty local part of non-whitespace non-`@` characters, a single `@`,
and a domain of non-whitespace non-`@` characters containing a dot with
at least one domain character before it and after it. -/
def specEmailOk (l : List Char) : Bool :=
  match l.dropWhile (fun c => !(c = '@' : Bool)) with
  | '@' :: dom =>
    let locPart := l.takeWhile (fun c => !(c = '@' : Bool))
    !locPart.isEmpty && locPart.all emailChar && specDomainOk dom
  | _ => false

/-- Characterization of `matchStarAtDomain`: the part of `specEmailOk`
after the mandatory first local character (local part may be empty
here). -/
def specTailOk (l : List Char) : Bool :=
  match l.dropWhile (fun c => !(c = '@' : Bool)) with
  | '@' :: dom =>
    (l.takeWhile (fun c => !(c = '@' : Bool))).all emailChar && specDomainOk dom
  | _ => false

/-- The claim's literal gloss of the pattern: a non-empty local part with
no whitespace and no `@`, a single `@`, and a domain part containing at
least one `.`. -/
def specGlossOk (l : List Char) : Bool :=
  match l.dropWhile (fun c => !(c = '@' : Bool)) with
  | '@' :: dom =>
    let locPart := l.takeWhile (fun c => !(c = '@' : Bool))
    !locPart.isEmpty && locPart.all emailChar && !dom.contains '@' && dom.contains '.'
  | _ => false

/-! ### Theorems about the connection cache -/

/-- C1: at most one underlying connect attempt is outstanding. A call
that finds a promise in flight awaits that same promise without touching
the state; from an empty cache, the first call makes exactly one connect
attempt, a second call made before the promise resolves changes nothing
and awaits the same promise, and on success both suspended calls resolve
to the same connection value. -/
theorem connectDB_single_flight (s : ConnState) (c : Nat)
    (hc : s.cache.conn = none) (hp : s.cache.promise = none) :
    (∀ t : ConnState, ∀ p : Nat, t.cache.conn = none → t.cache.promise = some p →
      connectDB_start t = (t, ConnStep.awaits p)) ∧
    (connectDB_start s).1.attempts = s.attempts + 1 ∧
    (connectDB_start s).2 = ConnStep.awaits s.nextPromise ∧
    connectDB_start (connectDB_start s).1 =
      ((connectDB_start s).1, ConnStep.awaits s.nextPromise) ∧
    (connectDB_resume (connectDB_start (connectDB_start s).1).1 (ConnOutcome.ok c)).2 =
      Except.ok c ∧
    (connectDB_resume
      (connectDB_resume (connectDB_start (connectDB_start s).1).1 (ConnOutcome.ok c)).1
      (ConnOutcome.ok c)).2 = Except.ok c := by
  refine ⟨fun t p h1 h2 => by simp [connectDB_start, h1, h2], ?_, ?_, ?_, ?_, ?_⟩ <;>
    simp [connectDB_start, connectDB_resume, hc, hp]

/-- C1 witness: the two-call scenario from the initial state, with the
connect attempt resolving to connection 42. -/
theorem connectDB_single_flight_witness :
    (∀ t : ConnState, ∀ p : Nat, t.cache.conn = none → t.cache.promise = some p →
      connectDB_start t = (t, ConnStep.awaits p)) ∧
    (connectDB_start ⟨⟨none, none⟩, 0, 0⟩).1.attempts = (0 : Nat) + 1 ∧
    (connectDB_start ⟨⟨none, none⟩, 0, 0⟩).2 = ConnStep.awaits 0 ∧
    connectDB_start (connectDB_start ⟨⟨none, none⟩, 0, 0⟩).1 =
      ((connectDB_start ⟨⟨none, none⟩, 0, 0⟩).1, ConnStep.awaits 0) ∧
    (connectDB_resume (connectDB_start (connectDB_start ⟨⟨none, none⟩, 0, 0⟩).1).1
      (ConnOutcome.ok 42)).2 = Except.ok 42 ∧
    (connectDB_resume
      (connectDB_resume (connectDB_start (connectDB_start ⟨⟨none, none⟩, 0, 0⟩).1).1
        (ConnOutcome.ok 42)).1
      (ConnOutcome.ok 42)).2 = Except.ok 42 :=
  connectDB_single_flight ⟨⟨none, none⟩, 0, 0⟩ 42 rfl rfl

/-- C3: if the awaited connect attempt fails, the caller gets the error
back, the cache afterwards holds neither a connection nor an in-flight
promise, and the next call starts a fresh connect attempt (one more
underlying attempt, awaiting a fresh promise). -/
theorem connectDB_failure_resets (s : ConnState) (e : Nat)
    (hc : s.cache.conn = none) :
    (connectDB_resume (connectDB_start s).1 (ConnOutcome.fail e)).2 = Except.error e ∧
    (connectDB_resume (connectDB_start s).1 (ConnOutcome.fail e)).1.cache.conn = none ∧
    (connectDB_resume (connectDB_start s).1 (ConnOutcome.fail e)).1.cache.promise = none ∧
    (connectDB_start (connectDB_resume (connectDB_start s).1 (ConnOutcome.fail e)).1).1.attempts =
      (connectDB_resume (connectDB_start s).1 (ConnOutcome.fail e)).1.attempts + 1 ∧
    (connectDB_start (connectDB_resume (connectDB_start s).1 (ConnOutcome.fail e)).1).2 =
      ConnStep.awaits
        (connectDB_resume (connectDB_start s).1 (ConnOutcome.fail e)).1.nextPromise := by
  cases hp : s.cache.promise <;>
    simp [connectDB_start, connectDB_resume, hc, hp]

/-- C3 witness: a failing first attempt from the initial state, with
error 7. -/
theorem connectDB_failure_resets_witness :
    (connectDB_resume (connectDB_start ⟨⟨none, none⟩, 0, 0⟩).1 (ConnOutcome.fail 7)).2 =
      Except.error 7 ∧
    (connectDB_resume (connectDB_start ⟨⟨none, none⟩, 0, 0⟩).1
      (ConnOutcome.fail 7)).1.cache.conn = none ∧
    (connectDB_resume (connectDB_start ⟨⟨none, none⟩, 0, 0⟩).1
      (ConnOutcome.fail 7)).1.cache.promise = none ∧
    (connectDB_start (connectDB_resume (connectDB_start ⟨⟨none, none⟩, 0, 0⟩).1
      (ConnOutcome.fail 7)).1).1.attempts =
      (connectDB_resume (connectDB_start ⟨⟨none, none⟩, 0, 0⟩).1
        (ConnOutcome.fail 7)).1.attempts + 1 ∧
    (connectDB_start (connectDB_resume (connectDB_start ⟨⟨none, none⟩, 0, 0⟩).1
      (ConnOutcome.fail 7)).1).2 =
      ConnStep.awaits
        (connectDB_resume (connectDB_start ⟨⟨none, none⟩, 0, 0⟩).1
          (ConnOutcome.fail 7)).1.nextPromise :=
  connectDB_failure_resets ⟨⟨none, none⟩, 0, 0⟩ 7 rfl

/-- C4: a successful resumption caches the connection, and whenever the
cache holds a connection, `connectDB` returns it synchronously with the
state unchanged — no suspension and no new connect attempt. -/
theorem connectDB_cached_hit (s t : ConnState) (c : Nat)
    (h : s.cache.conn = some c) :
    connectDB_start s = (s, ConnStep.ret c) ∧
    (connectDB_resume t (ConnOutcome.ok c)).1.cache.conn = some c := by
  constructor
  · simp [connectDB_start, h]
  · simp [connectDB_resume]

/-- C4 witness: a state caching connection 5 returns it unchanged. -/
theorem connectDB_cached_hit_witness :
    connectDB_start ⟨⟨some 5, some 0⟩, 1, 1⟩ = (⟨⟨some 5, some 0⟩, 1, 1⟩, ConnStep.ret 5) ∧
    (connectDB_resume ⟨⟨none, some 0⟩, 1, 1⟩ (ConnOutcome.ok 5)).1.cache.conn = some 5 :=
  connectDB_cached_hit ⟨⟨some 5, some 0⟩, 1, 1⟩ ⟨⟨none, some 0⟩, 1, 1⟩ 5 rfl

/-- C8 counterexample: a present but empty `MONGODB_URI` is falsy, so
module initialization throws the fatal startup error rather than
succeeding — the claim's "if the variable is present, initialization
succeeds" is false at the empty string. -/
theorem moduleInit_empty_uri_counterexample :
    (moduleInit (some "")).1 =
      Except.error "Please define the MONGODB_URI environment variable inside .env.local" :=
  rfl

/-- C8 (amended): module initialization reads the environment exactly
once; a falsy URI — the variable absent, or present but empty — throws
the fatal startup error (so `connectDB` is never reached), and a
present non-empty URI initializes successfully with that URI. -/
theorem moduleInit_missing_uri_fatal (env : Option String) :
    (moduleInit env).2 = 1 ∧
    (env = none → (moduleInit env).1 =
      Except.error "Please define the MONGODB_URI environment variable inside .env.local") ∧
    (env = some "" → (moduleInit env).1 =
      Except.error "Please define the MONGODB_URI environment variable inside .env.local") ∧
    (∀ uri, env = some uri → uri ≠ "" → (moduleInit env).1 = Except.ok uri) := by
  refine ⟨?_, ?_, ?_, ?_⟩
  · cases env with
    | none => rfl
    | some uri => by_cases h : uri = "" <;> simp [moduleInit, h]
  · intro h; subst h; rfl
  · intro h; subst h; rfl
  · intro uri h hne; subst h; simp [moduleInit, hne]

/-- C8 witness: the absent case and a present non-empty URI. -/
theorem moduleInit_missing_uri_fatal_witness :
    (moduleInit none).1 =
      Except.error "Please define the MONGODB_URI environment variable inside .env.local" ∧
    (moduleInit (some "mongodb://localhost/dev-events")).1 =
      Except.ok "mongodb://localhost/dev-events" :=
  ⟨(moduleInit_missing_uri_fatal none).2.1 rfl,
   (moduleInit_missing_uri_fatal (some "mongodb://localhost/dev-events")).2.2.2
     "mongodb://localhost/dev-events" rfl (by decide)⟩

/-- C10: re-running module initialization is idempotent on process-wide
state: an existing global cache object is reused as-is (connection and
in-flight promise preserved), and an already-registered Booking model is
returned instead of a fresh compilation, so a second load observes the
state of the first. -/
theorem module_reload_preserves_state (g : Option ConnCache) (c : ConnCache)
    (registered : Option Nat) (m f1 f2 : Nat) :
    initGlobalCache (some c) = c ∧
    initBookingModel (some m) f1 = m ∧
    initGlobalCache (some (initGlobalCache g)) = initGlobalCache g ∧
    initBookingModel (some (initBookingModel registered f1)) f2 =
      initBookingModel registered f1 :=
  ⟨rfl, rfl, rfl, rfl⟩

/-- C5: the pre-save hook performs the Event lookup exactly when the
document is new or its `eventId` path is modified; for an existing
document with unchanged `eventId` it is skipped entirely and the hook
succeeds without consulting the Event collection. -/
theorem preSaveHook_lookup_iff (events : List Nat) (isNew modifiedEventId : Bool)
    (eventId : Nat) :
    (preSaveHook events isNew modifiedEventId eventId).2 =
      (if isNew || modifiedEventId then 1 else 0) ∧
    preSaveHook events false false eventId = (Except.ok (), 0) := by
  constructor
  · unfold preSaveHook
    split
    · split <;> rfl
    · rfl
  · rfl

/-! ### Theorems about the Booking save pipeline -/

/-- C2 counterexample: an existing Booking saved with unchanged
`eventId` 9 while no Event 9 exists does not abort — the hook skips the
lookup and the write is persisted with zero lookups — refuting the
claim's "every save" for saves that neither create the document nor
modify its reference. -/
theorem booking_dangling_reference_persists :
    (9 ∉ DB.events ⟨[], []⟩) ∧
    runSave ⟨[], []⟩ false false (some 9) (some "a@b.c") =
      ⟨⟨[], [(9, "a@b.c")]⟩, Except.ok (9, "a@b.c"), 0⟩ :=
  ⟨by decide, rfl⟩

/-- C2 (amended): for a save that introduces or changes the event
reference — the document is new or its `eventId` path is modified —
and reaches the reference check (valid email), a non-resolving
`eventId` aborts the save with a reference-integrity error whose
message names the offending `eventId` and the database is unchanged
(no Booking persisted); if the Event exists the write proceeds. Saves
of existing documents with unchanged `eventId` skip the check. -/
theorem booking_save_reference_integrity (db : DB) (isNew modifiedEventId : Bool)
    (eid : Nat) (em : String)
    (hguard : (isNew || modifiedEventId) = true)
    (hval : emailAccept (normalizeEmail em) = true) :
    (eid ∉ db.events →
      runSave db isNew modifiedEventId (some eid) (some em) =
        ⟨db, Except.error (SaveError.referenceIntegrity (refErrorMsg eid)), 1⟩) ∧
    (eid ∈ db.events →
      runSave db isNew modifiedEventId (some eid) (some em) =
        ⟨⟨db.events, db.bookings ++ [(eid, normalizeEmail em)]⟩,
          Except.ok (eid, normalizeEmail em), 1⟩) := by
  constructor <;> intro hmem <;> simp [runSave, preSaveHook, hguard, hval, hmem]

/-- C2 witness: changing an existing Booking's `eventId` to missing
event 7 aborts and persists nothing; creating a Booking with existing
event 7 persists it. -/
theorem booking_save_reference_integrity_witness :
    runSave ⟨[], [(3, "old@b.c")]⟩ false true (some 7) (some "a@b.c") =
      ⟨⟨[], [(3, "old@b.c")]⟩,
        Except.error (SaveError.referenceIntegrity "Event with ID 7 does not exist"), 1⟩ ∧
    runSave ⟨[7], []⟩ true false (some 7) (some "a@b.c") =
      ⟨⟨[7], [(7, "a@b.c")]⟩, Except.ok (7, "a@b.c"), 1⟩ := by
  constructor
  · have h := (booking_save_reference_integrity ⟨[], [(3, "old@b.c")]⟩ false true 7 "a@b.c"
      (by decide) (by decide)).1 (by decide)
    rw [h]; rfl
  · have h := (booking_save_reference_integrity ⟨[7], []⟩ true false 7 "a@b.c"
      (by decide) (by decide)).2 (by decide)
    rw [h]; rfl

/-- C6: a malformed email (one whose normalized form fails the format
check) aborts the save with a validation failure before the
Event-existence check is attempted — zero lookups, the database
unchanged — for every database and every `eventId`, valid or not. -/
theorem email_validation_precedes_reference_check (db : DB)
    (isNew modifiedEventId : Bool) (eid : Nat) (em : String)
    (hbad : emailAccept (normalizeEmail em) = false) :
    runSave db isNew modifiedEventId (some eid) (some em) =
      ⟨db, Except.error (SaveError.validation "Please provide a valid email address"), 0⟩ := by
  simp [runSave, hbad]

/-- C6 witness: `"not-an-email"` is rejected with zero Event lookups
even though event 7 exists. -/
theorem email_validation_precedes_reference_check_witness :
    runSave ⟨[7], []⟩ true false (some 7) (some "not-an-email") =
      ⟨⟨[7], []⟩, Except.error (SaveError.validation "Please provide a valid email address"), 0⟩ :=
  email_validation_precedes_reference_check ⟨[7], []⟩ true false 7 "not-an-email" (by decide)

/-- C7: every successfully persisted Booking stores the supplied email
trimmed and lower-cased. -/
theorem booking_email_normalized (db : DB) (eid : Nat) (em : String)
    (hev : eid ∈ db.events) (hval : emailAccept (normalizeEmail em) = true) :
    (runSave db true false (some eid) (some em)).result =
      Except.ok (eid, normalizeEmail em) ∧
    (runSave db true false (some eid) (some em)).db =
      ⟨db.events, db.bookings ++ [(eid, normalizeEmail em)]⟩ := by
  simp [runSave, preSaveHook, hval, hev]

/-- C7 witness: with event 1 existing, saving `"User@Example.com"`
succeeds and persists `"user@example.com"`. -/
theorem booking_email_normalized_witness :
    (runSave ⟨[1], []⟩ true false (some 1) (some "User@Example.com")).result =
      Except.ok (1, "user@example.com") ∧
    (runSave ⟨[1], []⟩ true false (some 1) (some "User@Example.com")).db =
      ⟨[1], [(1, "user@example.com")]⟩ := by
  have h := booking_email_normalized ⟨[1], []⟩ 1 "User@Example.com" (by decide) (by decide)
  constructor
  · rw [h.1]; rfl
  · rw [h.2]; rfl

/-! ### The email regex characterized -/

theorem matchStarDotAplus_eq (l : List Char) :
    matchStarDotAplus l = (l.all emailChar && hasNonFinalDot l) := by
  induction l with
  | nil => rfl
  | cons c rest ih =>
    by_cases hc : c = '.'
    · subst hc
      simp only [matchStarDotAplus, matchAplus, hasNonFinalDot, List.all_cons, ih,
        if_pos rfl]
      have he : emailChar '.' = true := by decide
      rw [he]
      cases h1 : rest.isEmpty <;> cases h2 : rest.all emailChar <;>
        cases h3 : hasNonFinalDot rest <;> simp
    · simp only [matchStarDotAplus, hasNonFinalDot, List.all_cons, ih, if_neg hc,
        Bool.false_or, decide_eq_true_eq]
      simp [hc, Bool.and_assoc]

theorem matchDomain_eq (l : List Char) : matchDomain l = specDomainOk l := by
  cases l with
  | nil => rfl
  | cons c rest =>
    simp only [matchDomain, specDomainOk, hasInteriorDot, List.all_cons,
      matchStarDotAplus_eq, Bool.and_assoc]

theorem matchStarAtDomain_eq (l : List Char) : matchStarAtDomain l = specTailOk l := by
  induction l with
  | nil => rfl
  | cons c rest ih =>
    by_cases hc : c = '@'
    · subst hc
      have he : emailChar '@' = false := by decide
      simp only [matchStarAtDomain, specTailOk, if_pos rfl, he, Bool.false_and,
        Bool.or_false, List.dropWhile, List.takeWhile, decide_True, Bool.not_true]
      simp [matchDomain_eq]
    · have hd : decide (c = '@') = false := by simp [hc]
      simp only [matchStarAtDomain, specTailOk, if_neg hc, Bool.false_or, ih,
        List.dropWhile_cons, List.takeWhile_cons, hd, Bool.not_false, if_true]
      cases h : rest.dropWhile (fun c => !(c = '@' : Bool)) with
      | nil => simp [specTailOk, h]
      | cons d dom =>
        by_cases hd : d = '@'
        · subst hd
          simp [specTailOk, h, List.all_cons, Bool.and_assoc]
        · simp [specTailOk, h, hd]

theorem emailMatch_eq (l : List Char) : emailMatch l = specEmailOk l := by
  cases l with
  | nil => rfl
  | cons c rest =>
    by_cases hc : c = '@'
    · subst hc
      have he : emailChar '@' = false := by decide
      simp [emailMatch, specEmailOk, he, List.dropWhile, List.takeWhile]
    · have hd : decide (c = '@') = false := by simp [hc]
      simp only [emailMatch, specEmailOk, matchStarAtDomain_eq, specTailOk,
        List.dropWhile_cons, List.takeWhile_cons, hd, Bool.not_false, if_true]
      cases h : rest.dropWhile (fun c => !(c = '@' : Bool)) with
      | nil => simp [h]
      | cons d dom =>
        by_cases hd : d = '@'
        · subst hd
          simp [h, List.all_cons, Bool.and_assoc]
        · simp [h, hd]

/-- C9 counterexample: `"a@.b"` has a non-empty whitespace-free
`@`-free local part, a single `@`, and a domain part containing a `.`,
yet the validator rejects it — the literal "domain part containing at
least one '.'" reading of the pattern is not what the regex accepts. -/
theorem email_gloss_counterexample :
    specGlossOk ("a@.b".toList) = true ∧ emailAccept "a@.b" = false := by
  constructor <;> decide

/-- C9 (amended): the validator accepts a string exactly when it has a
non-empty local part of non-whitespace non-`@` characters, a single
`@`, and a domain of non-whitespace non-`@` characters containing a
`.` with at least one domain character before it and after it; in
particular the empty string, strings containing whitespace, strings
with more than one `@`, and addresses whose domain lacks a `.` are all
rejected. -/
theorem email_validator_spec :
    (∀ s : String, emailAccept s = specEmailOk s.toList) ∧
    emailAccept "" = false ∧
    emailAccept "ab c@d.e" = false ∧
    emailAccept "a@b@c.d" = false ∧
    emailAccept "a@bc" = false :=
  ⟨fun s => emailMatch_eq s.toList, by decide, by decide, by decide, by decide⟩

end DevEvents
